import Mathlib

/-!
# Verification of the Unimate scene-orchestration core

A shallow embedding of the scene orchestration and phase-timed animation
engine of the Unimate Robotics website: the durable progress store
(`GlobalState.js`), the top-level scene controller (`App.js`), and the two
concrete phase timelines (`LoadingScene.js`, `EntryGateScene.js`).

Conventions of the embedding:
* JavaScript numbers are modelled as `ℤ` where the code only ever holds
  integers (scene indices), as `ℚ` for the clamped load fraction, and as `ℝ`
  where the code does trigonometric / easing arithmetic.
* Mutable objects become immutable records; a method that mutates `this`
  becomes a function `State → … → State`.
* Fire-and-forget collaborator calls that are out of scope (audio triggers,
  the DOM fade overlay, `console.log`, scene disposal) are recorded as event
  counters on the state so that "called exactly once" properties can be
  stated.  DOM/CSS string formatting (e.g. the `textShadow` style string) is
  out of scope per the specification and is represented by the numeric
  values that drive it.
* `sessionStorage` may be absent (it throws in sandboxed contexts); it is
  modelled by `Store`, with `Store.unavailable` standing for a medium whose
  every access throws (the code catches the exception).
* Per-frame mutated numeric buffers (particle angle/radius arrays) are
  modelled as total functions `ℕ → ℝ`.
-/

namespace Unimate

/-! ## Durable storage collaborator (`sessionStorage`) -/

/-- The durable medium: either unavailable (every access throws, the code
catches) or available and holding an optional string under the session key. -/
inductive Store where
  | unavailable : Store
  | avail : Option String → Store
deriving DecidableEq

/-- JS `sessionStorage.setItem(SESSION_KEY, String(index))` wrapped in
`try/catch`: a write to an unavailable medium is a silent no-op. -/
def Store.write (st : Store) (i : ℤ) : Store :=
  match st with
  | .unavailable => .unavailable
  | .avail _ => .avail (some (toString i))

/-! ## A model of JavaScript `parseInt(s, 10)`

`parseInt` skips leading whitespace, accepts an optional sign, and reads the
longest prefix of decimal digits; it returns `NaN` (here `none`) when that
prefix is empty. -/

/-- Whitespace characters skipped by `parseInt`. -/
def jsWhitespace (c : Char) : Bool :=
  c = ' ' || c = '\t' || c = '\n' || c = '\r' || c = '\x0b' || c = '\x0c'

/-- Decimal value of a digit-character list (most significant first). -/
def decDigitsVal : List Char → ℕ
  | [] => 0
  | c :: cs => (c.toNat - '0'.toNat) * 10 ^ cs.length + decDigitsVal cs

/-- JS `parseInt(s, 10)`, with `none` for `NaN`. -/
def jsParseInt (s : String) : Option ℤ :=
  let cs := s.data.dropWhile jsWhitespace
  let signAndRest : ℤ × List Char :=
    match cs with
    | '-' :: r => (-1, r)
    | '+' :: r => (1, r)
    | _ => (1, cs)
  let ds := signAndRest.2.takeWhile Char.isDigit
  if ds = [] then none else some (signAndRest.1 * (decDigitsVal ds : ℤ))

/-! ## ProgressStore (`GlobalState.js`) -/

/-- The user-data record carried by `GlobalState` (never read by the core). -/
structure UserData where
  name : String
  age : String
  contact : String
  interest : String
deriving DecidableEq

/-- JS `GlobalState`: progress tracking plus the durable medium it talks to. -/
structure GState where
  currentScene : ℤ
  visitedScenes : List ℤ
  loadingProgress : ℚ
  isLoading : Bool
  canProgress : Bool
  userData : UserData
  store : Store
deriving DecidableEq

/-- The fixed scene-name enumeration of `GlobalState.js`. -/
def sceneNames : List String :=
  ["loading", "entryGate", "mainStreet", "workshopDistrict",
   "competitionArena", "hallOfLegacy", "enrollmentHub", "exitConfirmation"]

/-- The constructor state of `GlobalState` (the durable medium's content is a
parameter: it survives reloads). -/
def GState.init (st : Store) : GState :=
  { currentScene := 0
    visitedScenes := [0]
    loadingProgress := 0
    isLoading := true
    canProgress := false
    userData := { name := "", age := "", contact := "", interest := "" }
    store := st }

/-- JS `GlobalState.getSavedScene()`: read the durable store; a parse result in
`1 ≤ idx < sceneNames.length` is returned, anything else (absent key, `NaN`,
out-of-range value, or a throwing medium) falls back to `1`. -/
def GState.getSavedScene (g : GState) : ℤ :=
  match g.store with
  | .unavailable => 1
  | .avail none => 1
  | .avail (some saved) =>
      match jsParseInt saved with
      | none => 1
      | some idx => if 1 ≤ idx ∧ idx < (sceneNames.length : ℤ) then idx else 1

/-- JS `GlobalState.saveScene(index)`: persist the index (silently dropped when
the medium is unavailable). -/
def GState.saveScene (g : GState) (index : ℤ) : GState :=
  { g with store := g.store.write index }

/-- JS `Set.add`: insert without duplicating. -/
def setAdd (l : List ℤ) (i : ℤ) : List ℤ :=
  if i ∈ l then l else l ++ [i]

/-- JS `GlobalState.setScene(sceneIndex)`: in-range indices update the current
scene, the visited set and (for indices `> 0`) the durable store;
out-of-range indices are silently ignored. -/
def GState.setScene (g : GState) (sceneIndex : ℤ) : GState :=
  if 0 ≤ sceneIndex ∧ sceneIndex < (sceneNames.length : ℤ) then
    let g1 := { g with currentScene := sceneIndex,
                       visitedScenes := setAdd g.visitedScenes sceneIndex }
    if 0 < sceneIndex then g1.saveScene sceneIndex else g1
  else g

/-- JS `GlobalState.nextScene()`: advance by one when not already on the last
index, reporting success; otherwise fail with no state change. -/
def GState.nextScene (g : GState) : Bool × GState :=
  if g.currentScene < (sceneNames.length : ℤ) - 1 then
    (true, g.setScene (g.currentScene + 1))
  else (false, g)

/-- JS `GlobalState.getCanProgress()`. -/
def GState.getCanProgress (g : GState) : Bool := g.canProgress

/-- JS `GlobalState.setCanProgress(v)`. -/
def GState.setCanProgress (g : GState) (v : Bool) : GState :=
  { g with canProgress := v }

/-- JS `GlobalState.setLoadingProgress(p)`: clamp to `[0, 1]`. -/
def GState.setLoadingProgress (g : GState) (p : ℚ) : GState :=
  { g with loadingProgress := max 0 (min 1 p) }

/-! ## SceneController (`App.js`)

`this.scenes[name]` holds either a built scene object or `null`; whether a
name is built is the `built` field.  The active scene reference
(`this.currentScene`, a JS object) is modelled by the name of the scene it
points at.  A scene name fetched from `SCENE_NAMES[i]` can be `undefined`
when `i` is out of range, so lookups carry `Option String`.  `switchScene`,
`fadeTransition` and `dispose()` invocations are recorded as counters. -/

/-- The `SCENE_NAMES` array of `App.js` (same enumeration as
`GlobalState.sceneNames`, duplicated in the source). -/
def SCENE_NAMES : List String :=
  ["loading", "entryGate", "mainStreet", "workshopDistrict",
   "competitionArena", "hallOfLegacy", "enrollmentHub", "exitConfirmation"]

/-- JS `Array.prototype.indexOf` over `SCENE_NAMES` (`-1` when absent; an
`undefined` argument is never an element). -/
def jsIndexOfAux (target : String) : List String → ℤ → ℤ
  | [], _ => -1
  | n :: rest, acc => if n = target then acc else jsIndexOfAux target rest (acc + 1)

/-- JS `SCENE_NAMES.indexOf(name)` where `name` may be `undefined`. -/
def jsIndexOf (name : Option String) : ℤ :=
  match name with
  | none => -1
  | some s => jsIndexOfAux s SCENE_NAMES 0

/-- JS `SCENE_NAMES[i]` for an arbitrary integer subscript (`undefined` out of
range). -/
def sceneNameAt (i : ℤ) : Option String :=
  if 0 ≤ i then SCENE_NAMES[i.toNat]? else none

/-- The controller state of `App`. -/
structure AppState where
  /-- which names hold a built scene object in `this.scenes` -/
  built : String → Bool
  /-- whether a built scene object exposes `dispose` (`currentScene?.dispose`) -/
  hasDispose : String → Bool
  /-- JS `this.currentScene`, by the name of the referenced scene object -/
  active : Option String
  /-- JS `this._progressGuard` -/
  progressGuard : Bool
  /-- JS `this.globalState` -/
  gs : GState
  /-- number of `switchScene` invocations so far (scene swaps) -/
  switchCalls : ℕ
  /-- number of `fadeTransition` invocations so far -/
  fadeRuns : ℕ
  /-- number of `dispose()` invocations on outgoing scenes so far -/
  disposeCalls : ℕ

/-- JS `App.switchScene(sceneName)`: an unbuilt (or `undefined`) target logs,
still updates `GlobalState`'s index when the name is in the enumeration,
clears the active reference and runs the fade; a built target first disposes
the outgoing scene (when it exposes `dispose`), installs the new reference,
updates `GlobalState` and runs the fade. -/
def AppState.switchScene (a : AppState) (sceneName : Option String) : AppState :=
  let isBuilt : Bool := match sceneName with
    | none => false
    | some n => a.built n
  if isBuilt = false then
    let idx := jsIndexOf sceneName
    { a with gs := if idx ≠ -1 then a.gs.setScene idx else a.gs
             active := none
             switchCalls := a.switchCalls + 1
             fadeRuns := a.fadeRuns + 1 }
  else
    let a1 := match a.active with
      | some cur =>
          if a.hasDispose cur then { a with disposeCalls := a.disposeCalls + 1 } else a
      | none => a
    let idx := jsIndexOf sceneName
    { a1 with active := sceneName
              gs := if idx ≠ -1 then a1.gs.setScene idx else a1.gs
              switchCalls := a1.switchCalls + 1
              fadeRuns := a1.fadeRuns + 1 }

/-- JS `App.previousScene()`: never navigates back onto the loading scene. -/
def AppState.previousScene (a : AppState) : AppState :=
  let currentIdx := a.gs.currentScene
  if currentIdx ≤ 0 then a
  else
    let prevIdx := currentIdx - 1
    if prevIdx = 0 then a
    else a.switchScene (sceneNameAt prevIdx)

/-- JS `App.checkSceneProgression()`: the once-per-frame progression poll.  The
`setTimeout` that later clears the guard is the separate event
`AppState.guardRelease`; within the guard window it has not fired. -/
def AppState.checkSceneProgression (a : AppState) : AppState :=
  if a.gs.getCanProgress = false ∨ a.progressGuard then a
  else
    let currentIdx := a.gs.currentScene
    if currentIdx = 0 then
      let a1 := { a with progressGuard := true, gs := a.gs.setCanProgress false }
      let savedIdx := a1.gs.getSavedScene
      a1.switchScene (sceneNameAt savedIdx)
    else if a.gs.getCanProgress then
      let a1 := { a with progressGuard := true, gs := a.gs.setCanProgress false }
      let next := a1.gs.nextScene
      let a2 := { a1 with gs := next.2 }
      if next.1 then a2.switchScene (sceneNameAt a2.gs.currentScene) else a2
    else a

/-- The deferred `setTimeout(() => { this._progressGuard = false; }, 500)`:
firing it ends the guard window. -/
def AppState.guardRelease (a : AppState) : AppState :=
  { a with progressGuard := false }

/-! ## Intro timeline (`LoadingScene.js`)

The scene's timer-driven phase state machine.  All numeric visual state the
phases mutate is carried on the record; the numeric buffers are functions
over particle indices.  The whoosh audio trigger and the `GlobalState`
interactions reachable from `update` (`setCanProgress(true)`) are fields. -/

/-- The phase enumeration actually assigned by `LoadingScene` (the `done`
value named in a comment is never assigned). -/
inductive Phase where
  | loading | ringFade | dotExplode | textPulse | exitBurst
deriving DecidableEq

/-- JS `RING_FADE_DURATION` (seconds). -/
noncomputable def RING_FADE_DURATION : ℝ := 0.3

/-- JS `DOT_PULSES_BEFORE_EXPLODE`. -/
def DOT_PULSES_BEFORE_EXPLODE : ℕ := 1

/-- JS `EXPLODE_DURATION` (seconds). -/
noncomputable def EXPLODE_DURATION : ℝ := 0.75

/-- JS `PULSE_HOLD_BEFORE_EXIT` (seconds). -/
noncomputable def PULSE_HOLD_BEFORE_EXIT : ℝ := 1.2

/-- JS `EXIT_DURATION` (seconds). -/
noncomputable def EXIT_DURATION : ℝ := 0.7

/-- JS `Math.sign` (its argument here is never `NaN`). -/
noncomputable def jsSign (x : ℝ) : ℝ :=
  if 0 < x then 1 else if x < 0 then -1 else 0

/-- JS `LoadingScene.easeInQuart`. -/
def easeInQuart (t : ℝ) : ℝ := t * t * t * t

/-- JS `LoadingScene.easeInOutCubic`. -/
noncomputable def easeInOutCubic (t : ℝ) : ℝ :=
  if t < 0.5 then 4 * t * t * t else 1 - (-2 * t + 2) ^ 3 / 2

/-- The mutable state of a `LoadingScene` instance. -/
structure LScene where
  phase : Phase
  /-- JS `this.phaseTimer` (seconds in current phase) -/
  phaseTimer : ℝ
  /-- JS `this.pulseTime` (global sine-wave clock) -/
  pulseTime : ℝ
  /-- JS `this.loadingProgress` (written by the external loader) -/
  loadingProgress : ℝ
  isComplete : Bool
  dotPulseCount : ℕ
  /-- JS `this.lastSinSign` -/
  lastSinSign : ℝ
  /-- JS `this._explodeStarted` (initially `undefined`, i.e. falsy) -/
  explodeStarted : Bool
  dotScale : ℝ
  dotOpacity : ℝ
  dotVisible : Bool
  lightIntensity : ℝ
  ringOpacity : ℝ
  arcOpacity : ℝ
  ringVisible : Bool
  arcVisible : Bool
  ringRotZ : ℝ
  /-- arc angle of the rebuilt progress-arc geometry -/
  arcLength : ℝ
  particleAngles : ℕ → ℝ
  particleRadii : ℕ → ℝ
  particleBaseRadii : ℕ → ℝ
  particleHeights : ℕ → ℝ
  /-- particle position buffer (x, y, z per index) -/
  particlePos : ℕ → ℝ × ℝ × ℝ
  /-- JS `this._exitStartRadii` -/
  exitStartRadii : ℕ → ℝ
  particleOpacity : ℝ
  /-- JS `welcomeEl.style.opacity` -/
  welcomeOpacity : ℝ
  /-- scale factor inside `welcomeEl.style.transform` -/
  welcomeScale : ℝ
  /-- JS `this._blockLook` -/
  blockLook : Bool
  /-- whether the arrow buttons are shown (disable/enableControls) -/
  arrowsShown : Bool
  /-- number of `playWhoosh()` trigger invocations -/
  whooshCount : ℕ
  /-- JS `globalState.canProgress` as far as this scene writes it -/
  gsCanProgress : Bool

/-- JS `LoadingScene.orbitParticles(delta)`. -/
noncomputable def LScene.orbitParticles (s : LScene) (delta : ℝ) : LScene :=
  let speed := delta * 0.0004
  let angles := fun i => s.particleAngles i + speed + (i % 5 : ℕ) * speed * 0.12
  { s with particleAngles := angles
           particlePos := fun i =>
             (Real.cos (angles i) * s.particleRadii i,
              s.particleHeights i,
              Real.sin (angles i) * s.particleRadii i) }

/-- JS `LoadingScene.updateLoading()`. -/
noncomputable def LScene.updateLoading (s : LScene) : LScene :=
  { s with dotScale := 1 + Real.sin (s.pulseTime * 3) * 0.3
           lightIntensity := 1.5 + Real.sin (s.pulseTime * 3) * 0.8
           arcLength := s.loadingProgress * Real.pi * 2 }

/-- JS `LoadingScene.updateRingFade(dt)`: fade both rings; on completion hide
them, seed the pulse counter and the sine sign, and enter `dotExplode`. -/
noncomputable def LScene.updateRingFade (s : LScene) (dt : ℝ) : LScene :=
  let t := min (s.phaseTimer / RING_FADE_DURATION) 1
  let opacity := 1 - t
  let s1 := { s with ringOpacity := 0.35 * opacity
                     arcOpacity := opacity
                     dotScale := 1 + Real.sin (s.pulseTime * 3) * 0.3
                     lightIntensity := 1.5 + Real.sin (s.pulseTime * 3) * 0.8 }
  if 1 ≤ t then
    { s1 with ringVisible := false
              arcVisible := false
              dotPulseCount := 0
              lastSinSign := jsSign (Real.sin (s.pulseTime * 3))
              phase := Phase.dotExplode
              phaseTimer := 0 }
  else s1

/-- JS `LoadingScene.updateDotExplode(dt)`: count positive-to-nonpositive sine
crossings; at the configured count start the explosion timer, then drive the
explosion, the text crossfade and the particle expansion. -/
noncomputable def LScene.updateDotExplode (s : LScene) (dt : ℝ) : LScene :=
  let sinVal := Real.sin (s.pulseTime * 3)
  let sinSign := jsSign sinVal
  let s1 :=
    if 0 < s.lastSinSign ∧ sinSign ≤ 0 then
      let c := s.dotPulseCount + 1
      if DOT_PULSES_BEFORE_EXPLODE ≤ c ∧ s.explodeStarted = false then
        { s with dotPulseCount := c, explodeStarted := true, phaseTimer := 0 }
      else { s with dotPulseCount := c }
    else s
  let s2 := { s1 with lastSinSign := sinSign }
  if s2.explodeStarted = false then
    { s2 with dotScale := 1 + sinVal * 0.3
              lightIntensity := 1.5 + sinVal * 0.8 }
  else
    let t := min (s2.phaseTimer / EXPLODE_DURATION) 1
    let ease := easeInOutCubic t
    let s3 := { s2 with dotScale := 1 + ease * 60
                        dotOpacity := 1 - ease
                        lightIntensity := 1.5 + Real.sin (t * Real.pi) * 4 }
    let s4 :=
      if 0.25 ≤ t then
        { s3 with welcomeOpacity := easeInOutCubic (min ((t - 0.25) / 0.5) 1) }
      else s3
    let s5 :=
      if 0.2 ≤ t then
        { s4 with particleRadii := fun i =>
            s4.particleBaseRadii i * (1 + easeInOutCubic ((t - 0.2) / 0.8) * 1.5) }
      else s4
    if 1 ≤ t then
      { s5 with dotOpacity := 0
                dotVisible := false
                lightIntensity := 1
                particleRadii := fun i => s5.particleBaseRadii i * 2.5
                welcomeOpacity := 1
                phase := Phase.textPulse
                phaseTimer := 0 }
    else s5

/-- JS `LoadingScene.updateTextPulse(dt)`: breathe, and after the hold duration
exit on the next observed pulse peak, firing the whoosh once and capturing
the particle radii as the exit baseline. -/
noncomputable def LScene.updateTextPulse (s : LScene) (dt : ℝ) : LScene :=
  let pulse := 0.75 + Real.sin (s.pulseTime * 2.5) * 0.25
  let s1 := { s with welcomeOpacity := pulse
                     particleOpacity := 0.4 + pulse * 0.3 }
  if PULSE_HOLD_BEFORE_EXIT ≤ s1.phaseTimer then
    if 0.85 < Real.sin (s1.pulseTime * 2.5) then
      { s1 with whooshCount := s1.whooshCount + 1
                phase := Phase.exitBurst
                phaseTimer := 0
                exitStartRadii := s1.particleRadii }
    else s1
  else s1

/-- JS `LoadingScene.updateExitBurst(dt)`: quartic ease-in expansion and fade;
on completion mark complete, re-enable controls and allow progression. -/
noncomputable def LScene.updateExitBurst (s : LScene) (dt : ℝ) : LScene :=
  let t := min (s.phaseTimer / EXIT_DURATION) 1
  let ease := easeInQuart t
  let s1 := { s with welcomeOpacity := 1 - ease
                     welcomeScale := 1 + ease * 3
                     particleRadii := fun i => s.exitStartRadii i * (1 + ease * 8)
                     particleOpacity := (1 - ease) * 0.7
                     lightIntensity := (1 - ease) * 1.5 }
  if 1 ≤ t then
    { s1 with isComplete := true
              blockLook := false
              arrowsShown := true
              gsCanProgress := true }
  else s1

/-- JS `LoadingScene.update(time, delta)`: a completed scene is a no-op;
otherwise advance both clocks, spin the ring, orbit the particles and
dispatch on the phase. -/
noncomputable def LScene.update (s : LScene) (time delta : ℝ) : LScene :=
  if s.isComplete then s
  else
    let dt := delta * 0.001
    let s1 := { s with pulseTime := s.pulseTime + dt
                       phaseTimer := s.phaseTimer + dt
                       ringRotZ := s.ringRotZ + delta * 0.0004 }
    let s2 := s1.orbitParticles delta
    match s2.phase with
    | Phase.loading => s2.updateLoading
    | Phase.ringFade => s2.updateRingFade dt
    | Phase.dotExplode => s2.updateDotExplode dt
    | Phase.textPulse => s2.updateTextPulse dt
    | Phase.exitBurst => s2.updateExitBurst dt

/-- Iterated per-frame driving of a `LoadingScene`: frame `n` receives
elapsed time `tf n` and frame delta `d n` (milliseconds). -/
noncomputable def LScene.iterFrames (s : LScene) (tf d : ℕ → ℝ) : ℕ → LScene
  | 0 => s
  | n + 1 => (LScene.iterFrames s tf d n).update (tf n) (d n)

/-- The nominal pulse-clock value at frame boundary `n`: the starting value
plus the accumulated frame deltas (milliseconds converted to seconds). -/
noncomputable def ptSeq (p0 : ℝ) (d : ℕ → ℝ) : ℕ → ℝ
  | 0 => p0
  | n + 1 => ptSeq p0 d n + d n * 0.001

/-- The sign of the sine pulse sample observed at frame boundary `n`. -/
noncomputable def sgnSeq (p0 : ℝ) (d : ℕ → ℝ) (n : ℕ) : ℝ :=
  jsSign (Real.sin (ptSeq p0 d n * 3))

/-- Frame `n` carries a positive-to-nonpositive crossing of the pulse
signal's sign: the sample before the frame is of positive sign and the
sample the frame observes is of non-positive sign. -/
def crossAt (p0 : ℝ) (d : ℕ → ℝ) (n : ℕ) : Prop :=
  0 < sgnSeq p0 d n ∧ sgnSeq p0 d (n + 1) ≤ 0

/-! ## Gated-passage timeline (`EntryGateScene.js`)

Time-threshold driven (no named phases): the door slide, the title fade and
float, the spatial progression trigger and the theme-dependent lights.  The
camera depth and the document theme are external inputs sampled each frame.
`audioManager.playGateOpening()` invocations are counted. -/

/-- JS `DOOR_ANIMATION_START` (seconds). -/
noncomputable def DOOR_ANIMATION_START : ℝ := 0.5

/-- JS `DOOR_ANIMATION_DURATION` (seconds). -/
noncomputable def DOOR_ANIMATION_DURATION : ℝ := 2.0

/-- JS `TEXT_FADE_START` (seconds). -/
noncomputable def TEXT_FADE_START : ℝ := 3.0

/-- JS `TEXT_FADE_DURATION` (seconds). -/
noncomputable def TEXT_FADE_DURATION : ℝ := 1.0

/-- JS `PROGRESSION_Z_THRESHOLD`. -/
noncomputable def PROGRESSION_Z_THRESHOLD : ℝ := -10

/-- The mutable state of an `EntryGateScene` instance. -/
structure GateScene where
  elapsedTime : ℝ
  doorsOpened : Bool
  textVisible : Bool
  userPassedThrough : Bool
  progressionEnabled : Bool
  gateOpeningSoundPlayed : Bool
  /-- JS `this.fontLoaded` (flips when the external font load settles) -/
  fontLoaded : Bool
  /-- whether `this.titleText` has been built (null until the font loads) -/
  titleBuilt : Bool
  leftDoorX : ℝ
  rightDoorX : ℝ
  titleVisible : Bool
  titleOpacity : ℝ
  titleTransparent : Bool
  titleY : ℝ
  titleRotY : ℝ
  /-- number of `playGateOpening()` trigger invocations -/
  gateSoundCount : ℕ
  backgroundColor : ℕ
  fogColor : ℕ
  ambientColor : ℕ
  ambientIntensity : ℝ
  dirColor : ℕ
  dirIntensity : ℝ
  dirPos : ℝ × ℝ × ℝ

/-- The normalized door-animation progress a frame at `elapsedTime = e`
observes. -/
noncomputable def doorT (e : ℝ) : ℝ :=
  min ((e - DOOR_ANIMATION_START) / DOOR_ANIMATION_DURATION) 1

/-- JS `EntryGateScene.updateDoorAnimation()`: after the fixed delay slide the
doors along an ease-out cubic, firing the gate-opening cue once inside the
small window near the start. -/
noncomputable def GateScene.updateDoorAnimation (s : GateScene) : GateScene :=
  if s.doorsOpened then s
  else if s.elapsedTime < DOOR_ANIMATION_START then s
  else
    let animTime := s.elapsedTime - DOOR_ANIMATION_START
    let t := min (animTime / DOOR_ANIMATION_DURATION) 1
    let eased := 1 - (1 - t) ^ 3
    let s1 := { s with leftDoorX := -3.25 - eased * 3.25
                       rightDoorX := 3.25 + eased * 3.25 }
    let s2 :=
      if 0 < t ∧ t < 0.05 ∧ s1.gateOpeningSoundPlayed = false then
        { s1 with gateSoundCount := s1.gateSoundCount + 1
                  gateOpeningSoundPlayed := true }
      else s1
    if 1 ≤ t then { s2 with doorsOpened := true } else s2

/-- JS `EntryGateScene.updateTextAnimation()`. -/
noncomputable def GateScene.updateTextAnimation (s : GateScene) : GateScene :=
  if s.textVisible ∨ s.fontLoaded = false then s
  else if s.elapsedTime < TEXT_FADE_START then s
  else
    let fadeTime := s.elapsedTime - TEXT_FADE_START
    let t := min (fadeTime / TEXT_FADE_DURATION) 1
    let s1 := if s.titleVisible = false ∧ 0 < t then { s with titleVisible := true } else s
    let s2 := { s1 with titleOpacity := t, titleTransparent := true }
    if 1 ≤ t then
      { s2 with textVisible := true, titleTransparent := false, titleOpacity := 1 }
    else s2

/-- JS `EntryGateScene.updateTextFloating()`. -/
noncomputable def GateScene.updateTextFloating (s : GateScene) : GateScene :=
  if s.titleBuilt = false ∨ s.textVisible = false then s
  else
    { s with titleY := 13 + Real.sin (s.elapsedTime * 0.5) * 0.2
             titleRotY := Real.sin (s.elapsedTime * 0.3) * 0.06 }

/-- JS `EntryGateScene.checkUserProgress()` (with `enableProgression`'s state
effect inlined; its DOM button wiring is out of scope). -/
noncomputable def GateScene.checkUserProgress (s : GateScene) (camZ : ℝ) : GateScene :=
  if camZ < PROGRESSION_Z_THRESHOLD ∧ s.userPassedThrough = false then
    { s with userPassedThrough := true, progressionEnabled := true }
  else s

/-- JS `EntryGateScene.updateLightsForTheme()`. -/
def GateScene.updateLightsForTheme (s : GateScene) (isLight : Bool) : GateScene :=
  if isLight then
    { s with backgroundColor := 0x87ceeb
             fogColor := 0x87ceeb
             ambientColor := 0xfff4e0
             ambientIntensity := 0.8
             dirColor := 0xffffff
             dirIntensity := 1.2
             dirPos := (10, 20, 10) }
  else
    { s with backgroundColor := 0x000a14
             fogColor := 0x000a14
             ambientColor := 0x4488bb
             ambientIntensity := 0.4
             dirColor := 0xffffff
             dirIntensity := 0.7
             dirPos := (5, 15, 10) }

/-- JS `EntryGateScene.update(elapsed, delta)`, with the externally sampled
camera depth and document theme as per-frame inputs. -/
noncomputable def GateScene.update (s : GateScene) (elapsed delta camZ : ℝ)
    (isLight : Bool) : GateScene :=
  let s0 := { s with elapsedTime := elapsed / 1000 }
  ((((s0.updateDoorAnimation).updateTextAnimation).updateTextFloating).checkUserProgress
      camZ).updateLightsForTheme isLight

/-- One frame's external inputs: elapsed, delta, camera depth, theme. -/
structure GateFrame where
  elapsed : ℝ
  delta : ℝ
  camZ : ℝ
  isLight : Bool

/-- Drive a `GateScene` through a sequence of frames. -/
noncomputable def GateScene.runFrames (s : GateScene) : List GateFrame → GateScene
  | [] => s
  | f :: fs => GateScene.runFrames (s.update f.elapsed f.delta f.camZ f.isLight) fs

/-- The constructor state of `EntryGateScene` (doors closed at `±3.25`, all
flags down). -/
noncomputable def gateInit : GateScene :=
  { elapsedTime := 0
    doorsOpened := false
    textVisible := false
    userPassedThrough := false
    progressionEnabled := false
    gateOpeningSoundPlayed := false
    fontLoaded := false
    titleBuilt := false
    leftDoorX := -3.25
    rightDoorX := 3.25
    titleVisible := false
    titleOpacity := 0
    titleTransparent := true
    titleY := 13
    titleRotY := 0
    gateSoundCount := 0
    backgroundColor := 0x000a14
    fogColor := 0x000a14
    ambientColor := 0x4488bb
    ambientIntensity := 0.4
    dirColor := 0xffffff
    dirIntensity := 0.7
    dirPos := (5, 15, 10) }

/-! ## Concrete states used by witnesses and counterexamples -/

/-- A `GlobalState` whose durable store holds the string `"4"`. -/
def gStore4 : GState := GState.init (Store.avail (some ("4")))

/-- A store state sitting on scene index `3`. -/
def gAt3 : GState := { GState.init (Store.avail none) with currentScene := 3 }

/-- A controller state: on the loading scene, advance granted, guard clear. -/
def appAtZero : AppState :=
  { built := fun n => n == "loading" || n == "entryGate"
    hasDispose := fun _ => true
    active := some ("loading")
    progressGuard := false
    gs := { GState.init (Store.avail none) with canProgress := true }
    switchCalls := 0
    fadeRuns := 0
    disposeCalls := 0 }

/-- A controller state on the last scene (index 7) with advance granted. -/
def appAtLast : AppState :=
  { appAtZero with
    active := none
    gs := { GState.init (Store.avail none) with currentScene := 7, canProgress := true } }

/-- A controller state on scene index 3. -/
def appAt3 : AppState :=
  { appAtZero with
    active := none
    gs := { GState.init (Store.avail none) with currentScene := 3 } }

/-- A loading scene deep in its exit burst (timer at `0.65` s). -/
noncomputable def exitLS : LScene :=
  { phase := Phase.exitBurst
    phaseTimer := 0.65
    pulseTime := 5
    loadingProgress := 1
    isComplete := false
    dotPulseCount := 1
    lastSinSign := -1
    explodeStarted := true
    dotScale := 1
    dotOpacity := 0
    dotVisible := false
    lightIntensity := 1
    ringOpacity := 0
    arcOpacity := 0
    ringVisible := false
    arcVisible := false
    ringRotZ := 0
    arcLength := 0
    particleAngles := fun _ => 0
    particleRadii := fun _ => 1
    particleBaseRadii := fun _ => 1
    particleHeights := fun _ => 0
    particlePos := fun _ => (0, 0, 0)
    exitStartRadii := fun _ => 1
    particleOpacity := 0.7
    welcomeOpacity := 1
    welcomeScale := 1
    blockLook := true
    arrowsShown := false
    whooshCount := 1
    gsCanProgress := false }

/-- The same scene after completion. -/
noncomputable def doneLS : LScene := { exitLS with isComplete := true }

/-- A loading scene at the start of `dotExplode`: counter reset, sine sign
seeded (`1`, matching a pulse clock of `π/6` whose sample `sin(π/2) = 1`). -/
noncomputable def dotLS : LScene :=
  { exitLS with
    phase := Phase.dotExplode
    phaseTimer := 0
    pulseTime := Real.pi / 6
    explodeStarted := false
    dotPulseCount := 0
    lastSinSign := 1 }

/-- An elapsed-time sequence for driving frames (unused by the scene). -/
def tfZero : ℕ → ℝ := fun _ => 0

/-- A frame-delta sequence whose every frame advances the pulse clock by
`π/6` seconds (deltas are in milliseconds). -/
noncomputable def dSeqW : ℕ → ℝ := fun _ => 1000 * (Real.pi / 6)

/-! ## Helper lemmas about the ProgressStore -/

theorem sceneNames_length_int : (sceneNames.length : ℤ) = 8 := rfl

/-- Every run of `getSavedScene` either returns an in-range parsed index or
falls back to `1` (and then no in-range parse existed). -/
theorem getSavedScene_cases (g : GState) :
    (∃ saved idx, g.store = Store.avail (some saved) ∧ jsParseInt saved = some idx ∧
        1 ≤ idx ∧ idx < 8 ∧ g.getSavedScene = idx) ∨
    (g.getSavedScene = 1 ∧ ∀ saved idx, g.store = Store.avail (some saved) →
        jsParseInt saved = some idx → ¬(1 ≤ idx ∧ idx < 8)) := by
  rcases hst : g.store with _ | (_ | saved)
  · refine Or.inr ⟨by simp [GState.getSavedScene, hst], ?_⟩
    intro s i hs _
    exact absurd hs (by simp)
  · refine Or.inr ⟨by simp [GState.getSavedScene, hst], ?_⟩
    intro s i hs _
    exact absurd hs (by simp)
  · rcases hp : jsParseInt saved with _ | idx
    · refine Or.inr ⟨by simp [GState.getSavedScene, hst, hp], ?_⟩
      intro s i hs hi
      obtain rfl : saved = s := by injection hs with h; injection h
      rw [hp] at hi; exact absurd hi (by simp)
    · by_cases hr : 1 ≤ idx ∧ idx < (sceneNames.length : ℤ)
      · refine Or.inl ⟨saved, idx, rfl, hp, hr.1, ?_, ?_⟩
        · have := hr.2; rw [sceneNames_length_int] at this; exact this
        · simp [GState.getSavedScene, hst, hp, if_pos hr]
      · refine Or.inr ⟨by simp [GState.getSavedScene, hst, hp, if_neg hr], ?_⟩
        intro s i hs hi
        obtain rfl : saved = s := by injection hs with h; injection h
        rw [hp] at hi
        obtain rfl : idx = i := by injection hi
        rw [sceneNames_length_int] at hr; exact hr

theorem GState.saveScene_currentScene (g : GState) (i : ℤ) :
    (g.saveScene i).currentScene = g.currentScene := rfl

@[simp] theorem GState.saveScene_canProgress (g : GState) (i : ℤ) :
    (g.saveScene i).canProgress = g.canProgress := rfl

/-- JS `setScene` on an in-range index installs exactly that index. -/
theorem GState.setScene_currentScene (g : GState) (i : ℤ)
    (h0 : 0 ≤ i) (h8 : i < 8) : (g.setScene i).currentScene = i := by
  unfold GState.setScene
  rw [if_pos ⟨h0, by rw [sceneNames_length_int]; exact h8⟩]
  by_cases h : 0 < i <;> simp [h, GState.saveScene]

@[simp] theorem GState.setScene_canProgress (g : GState) (i : ℤ) :
    (g.setScene i).canProgress = g.canProgress := by
  unfold GState.setScene
  split
  · by_cases h : 0 < i <;> simp [h, GState.saveScene]
  · rfl

@[simp] theorem GState.setCanProgress_currentScene (g : GState) (v : Bool) :
    (g.setCanProgress v).currentScene = g.currentScene := rfl

@[simp] theorem GState.setCanProgress_canProgress (g : GState) (v : Bool) :
    (g.setCanProgress v).canProgress = v := rfl

theorem setAdd_self_mem (l : List ℤ) (i : ℤ) : i ∈ setAdd l i := by
  unfold setAdd
  by_cases h : i ∈ l <;> simp [h]

/-! ## C2 — `getSavedScene` never resurrects the loading scene -/

/-- Claim C2: For every durable-store content (absent key, malformed string,
`"0"`, a negative number, a value at or beyond the scene-name count, or a
medium that throws on access), `getSavedScene` returns an index in `1..7`
and never `0`; a stored string that parses (radix 10) to an integer in that
range yields that integer, and every other case yields `1`. -/
theorem getSavedScene_safe (g : GState) :
    (1 ≤ g.getSavedScene ∧ g.getSavedScene ≤ 7 ∧ g.getSavedScene ≠ 0) ∧
    (∀ saved idx, g.store = Store.avail (some saved) → jsParseInt saved = some idx →
        1 ≤ idx → idx ≤ 7 → g.getSavedScene = idx) ∧
    ((∀ saved idx, g.store = Store.avail (some saved) → jsParseInt saved = some idx →
        idx < 1 ∨ 7 < idx) → g.getSavedScene = 1) := by
  rcases getSavedScene_cases g with ⟨saved, idx, hst, hp, h1, h8, hv⟩ | ⟨hv, hmiss⟩
  · refine ⟨⟨by omega, by omega, by omega⟩, ?_, ?_⟩
    · intro s i hs hi _ _
      rw [hst] at hs
      obtain rfl : saved = s := by injection hs with h; injection h
      rw [hp] at hi
      obtain rfl : idx = i := by injection hi
      exact hv
    · intro hnone
      exact absurd (hnone saved idx hst hp) (by omega)
  · refine ⟨⟨by omega, by omega, by omega⟩, ?_, fun _ => hv⟩
    intro s i hs hi hi1 hi7
    exact absurd ⟨hi1, by omega⟩ (hmiss s i hs hi)

/-- Witness for C2: with `"4"` stored, the resume index is `4` and in range. -/
theorem getSavedScene_safe_witness :
    gStore4.getSavedScene = 4 ∧ 1 ≤ gStore4.getSavedScene ∧ gStore4.getSavedScene ≠ 0 := by
  have h := getSavedScene_safe gStore4
  exact ⟨h.2.1 ("4") 4 rfl (by decide) (by decide) (by decide), h.1.1, h.1.2.2⟩

/-! ## C3 — `nextScene` advances by exactly one and fails at the end -/

/-- Claim C3: From any reachable store state (index within the enumeration),
`nextScene` fails and changes nothing when the current index is already the
last one (`7`); otherwise it succeeds and moves the index to exactly
`currentScene + 1`, so successful calls form a strictly increasing,
gap-free index sequence. -/
theorem nextScene_strict_increment (g : GState)
    (h0 : 0 ≤ g.currentScene) (h7 : g.currentScene ≤ 7) :
    (g.currentScene = 7 → g.nextScene = (false, g)) ∧
    (g.currentScene < 7 →
        (g.nextScene).1 = true ∧ (g.nextScene).2.currentScene = g.currentScene + 1) := by
  constructor
  · intro h
    unfold GState.nextScene
    rw [if_neg]
    rw [sceneNames_length_int]; omega
  · intro h
    unfold GState.nextScene
    rw [if_pos (by rw [sceneNames_length_int]; omega)]
    exact ⟨rfl, GState.setScene_currentScene _ _ (by omega) (by omega)⟩

/-- Witness for C3: from index `3` the advance succeeds and lands on `4`. -/
theorem nextScene_strict_increment_witness :
    (gAt3.nextScene).1 = true ∧ (gAt3.nextScene).2.currentScene = 3 + 1 :=
  (nextScene_strict_increment gAt3 (by decide) (by decide)).2 (by decide)

/-! ## C4 — `setScene` validation and persistence -/

/-- Claim C4: `setScene` with an index outside `0..7` leaves the whole store
state unchanged (and raises no error — it is a total function); with an
in-range index it installs the index, adds it to the visited set, and
writes the durable store exactly when the index is strictly positive, while
touching none of the other fields. -/
theorem setScene_validation (g : GState) (i : ℤ) :
    (¬(0 ≤ i ∧ i < 8) → g.setScene i = g) ∧
    ((0 ≤ i ∧ i < 8) →
        (g.setScene i).currentScene = i ∧
        i ∈ (g.setScene i).visitedScenes ∧
        (g.setScene i).store = (if 0 < i then g.store.write i else g.store) ∧
        (g.setScene i).canProgress = g.canProgress ∧
        (g.setScene i).isLoading = g.isLoading ∧
        (g.setScene i).loadingProgress = g.loadingProgress ∧
        (g.setScene i).userData = g.userData) := by
  constructor
  · intro h
    unfold GState.setScene
    rw [if_neg (by rw [sceneNames_length_int]; exact h)]
  · intro h
    unfold GState.setScene
    rw [if_pos (by rw [sceneNames_length_int]; exact h)]
    by_cases hp : 0 < i <;>
      simp [hp, GState.saveScene, setAdd_self_mem]

/-- Witness for C4: at index `3` the index is installed, visited and
persisted; at index `99` the call is the identity. -/
theorem setScene_validation_witness :
    (gStore4.setScene 3).currentScene = 3 ∧
    3 ∈ (gStore4.setScene 3).visitedScenes ∧
    (gStore4.setScene 3).store = (if (0:ℤ) < 3 then gStore4.store.write 3 else gStore4.store) ∧
    gStore4.setScene 99 = gStore4 := by
  have hin := (setScene_validation gStore4 3).2 (by decide)
  have hout := (setScene_validation gStore4 99).1 (by decide)
  exact ⟨hin.1, hin.2.1, hin.2.2.1, hout⟩

/-! ## Helper lemmas about the SceneController -/

theorem AppState.switchScene_progressGuard (a : AppState) (n : Option String) :
    (a.switchScene n).progressGuard = a.progressGuard := by
  unfold AppState.switchScene
  rcases n with _ | s
  · rfl
  · cases hb : a.built s
    · simp [hb]
    · rcases ha : a.active with _ | cur
      · simp [hb, ha]
      · by_cases hd : a.hasDispose cur <;> simp [hb, ha, hd]

theorem AppState.switchScene_switchCalls (a : AppState) (n : Option String) :
    (a.switchScene n).switchCalls = a.switchCalls + 1 := by
  unfold AppState.switchScene
  rcases n with _ | s
  · rfl
  · cases hb : a.built s
    · simp [hb]
    · rcases ha : a.active with _ | cur
      · simp [hb, ha]
      · by_cases hd : a.hasDispose cur <;> simp [hb, ha, hd]

theorem AppState.switchScene_fadeRuns (a : AppState) (n : Option String) :
    (a.switchScene n).fadeRuns = a.fadeRuns + 1 := by
  unfold AppState.switchScene
  rcases n with _ | s
  · rfl
  · cases hb : a.built s
    · simp [hb]
    · rcases ha : a.active with _ | cur
      · simp [hb, ha]
      · by_cases hd : a.hasDispose cur <;> simp [hb, ha, hd]

/-- Both branches of `switchScene` perform the same `GlobalState` index
bookkeeping. -/
theorem AppState.switchScene_gs (a : AppState) (n : Option String) :
    (a.switchScene n).gs =
      (if jsIndexOf n ≠ -1 then a.gs.setScene (jsIndexOf n) else a.gs) := by
  unfold AppState.switchScene
  rcases n with _ | s
  · rfl
  · cases hb : a.built s
    · simp [hb]
    · rcases ha : a.active with _ | cur
      · simp [hb, ha]
      · by_cases hd : a.hasDispose cur <;> simp [hb, ha, hd]

theorem AppState.switchScene_gs_canProgress (a : AppState) (n : Option String) :
    (a.switchScene n).gs.canProgress = a.gs.canProgress := by
  rw [AppState.switchScene_gs]
  split <;> simp

/-- Within the guard window a second progression poll is a no-op. -/
theorem AppState.checkSceneProgression_of_guard (a : AppState)
    (h : a.progressGuard = true) : a.checkSceneProgression = a := by
  unfold AppState.checkSceneProgression
  rw [if_pos (Or.inr (by simp [h]))]

theorem GState.nextScene_of_lt (g : GState) (h : g.currentScene < 7) :
    g.nextScene = (true, g.setScene (g.currentScene + 1)) := by
  unfold GState.nextScene
  rw [if_pos (by rw [sceneNames_length_int]; omega)]

theorem GState.nextScene_of_last (g : GState) (h : ¬ g.currentScene < 7) :
    g.nextScene = (false, g) := by
  unfold GState.nextScene
  rw [if_neg (by rw [sceneNames_length_int]; omega)]

/-- An enumeration member's index is within `0..7`. -/
theorem jsIndexOf_mem_range (n : String) (h : n ∈ SCENE_NAMES) :
    0 ≤ jsIndexOf (some n) ∧ jsIndexOf (some n) < 8 := by
  simp [SCENE_NAMES] at h
  rcases h with rfl | rfl | rfl | rfl | rfl | rfl | rfl | rfl <;> decide

/-- Looking a name up by index and back yields the same index. -/
theorem jsIndexOf_sceneNameAt (i : ℤ) (h0 : 0 ≤ i) (h8 : i < 8) :
    jsIndexOf (sceneNameAt i) = i := by
  interval_cases i <;> decide

/-! ## C1 — the progression guard debounces the per-frame poll -/

/-- Counterexample to claim C1 as stated: on the last scene index (7), the
advance flag is set exactly once and the guard is clear, yet two progression
polls within the guard window perform zero scene swaps, not exactly one
(`nextScene` fails and `switchScene` is never reached). -/
theorem checkSceneProgression_cex :
    ¬ ((appAtLast.checkSceneProgression.checkSceneProgression).switchCalls =
        appAtLast.switchCalls + 1) := by decide

/-- Claim C1 (amended): with the advance flag set once, the guard clear and a
reachable scene index, the first poll engages the guard and clears the flag,
and the second poll inside the guard window is a complete no-op; the two
polls together perform exactly one scene swap — except on the last index,
where the advance fails and zero swaps occur. -/
theorem checkSceneProgression_single_swap (a : AppState)
    (hg : a.progressGuard = false) (hc : a.gs.canProgress = true)
    (h0 : 0 ≤ a.gs.currentScene) (h7 : a.gs.currentScene ≤ 7) :
    (a.checkSceneProgression).checkSceneProgression = a.checkSceneProgression ∧
    (a.checkSceneProgression).progressGuard = true ∧
    (a.checkSceneProgression).gs.canProgress = false ∧
    (a.checkSceneProgression).switchCalls =
      a.switchCalls + (if a.gs.currentScene = 7 then 0 else 1) := by
  have key : (a.checkSceneProgression).progressGuard = true ∧
      (a.checkSceneProgression).gs.canProgress = false ∧
      (a.checkSceneProgression).switchCalls =
        a.switchCalls + (if a.gs.currentScene = 7 then 0 else 1) := by
    unfold AppState.checkSceneProgression
    rw [if_neg (by simp [GState.getCanProgress, hc, hg])]
    by_cases hz : a.gs.currentScene = 0
    · rw [if_pos hz]
      refine ⟨?_, ?_, ?_⟩
      · simp [AppState.switchScene_progressGuard]
      · simp [AppState.switchScene_gs_canProgress]
      · simp only [AppState.switchScene_switchCalls]
        simp [hz]
    · rw [if_neg hz, if_pos (by simp [GState.getCanProgress, hc])]
      by_cases h7' : a.gs.currentScene = 7
      · have hns := GState.nextScene_of_last (a.gs.setCanProgress false)
          (by simp [h7'])
        simp only [hns]
        exact ⟨rfl, by simp, by simp [h7']⟩
      · have hns := GState.nextScene_of_lt (a.gs.setCanProgress false)
          (by simp; omega)
        simp only [hns]
        refine ⟨?_, ?_, ?_⟩
        · simp [AppState.switchScene_progressGuard]
        · simp [AppState.switchScene_gs_canProgress]
        · simp [AppState.switchScene_switchCalls, h7']
  exact ⟨AppState.checkSceneProgression_of_guard _ key.1, key⟩

/-- Witness for C1 (amended): from the loading scene with the flag granted,
the two polls perform exactly one swap and the second is a no-op. -/
theorem checkSceneProgression_single_swap_witness :
    (appAtZero.checkSceneProgression).checkSceneProgression =
        appAtZero.checkSceneProgression ∧
    (appAtZero.checkSceneProgression).progressGuard = true ∧
    (appAtZero.checkSceneProgression).gs.canProgress = false ∧
    (appAtZero.checkSceneProgression).switchCalls =
      appAtZero.switchCalls + (if appAtZero.gs.currentScene = 7 then 0 else 1) :=
  checkSceneProgression_single_swap appAtZero rfl rfl (by decide) (by decide)

/-! ## C5 — switching to an unbuilt scene degrades gracefully -/

/-- Claim C5: switching to a name whose registry slot holds no built scene
raises no exception (the embedding is a total function), still performs the
same `GlobalState` index bookkeeping as the registered path (installing the
name's position when it is in the enumeration), clears the active-scene
reference, and runs the fade transition. -/
theorem switchScene_unregistered_degraded (a : AppState) (n : String)
    (hn : a.built n = false) :
    (a.switchScene (some n)).active = none ∧
    (a.switchScene (some n)).fadeRuns = a.fadeRuns + 1 ∧
    (n ∈ SCENE_NAMES →
        (a.switchScene (some n)).gs.currentScene = jsIndexOf (some n)) ∧
    (a.switchScene (some n)).gs =
      ({ a with built := fun _ => true }.switchScene (some n)).gs := by
  refine ⟨?_, AppState.switchScene_fadeRuns a _, ?_, ?_⟩
  · unfold AppState.switchScene
    rw [if_pos (by simp [hn])]
  · intro hm
    rw [AppState.switchScene_gs]
    obtain ⟨hlo, hhi⟩ := jsIndexOf_mem_range n hm
    rw [if_pos (by omega)]
    exact GState.setScene_currentScene _ _ hlo hhi
  · rw [AppState.switchScene_gs, AppState.switchScene_gs]

/-- Witness for C5: switching the initial controller to the unbuilt
`mainStreet` scene clears the active reference, runs the fade and installs
index 2. -/
theorem switchScene_unregistered_degraded_witness :
    (appAtZero.switchScene (some ("mainStreet"))).active = none ∧
    (appAtZero.switchScene (some ("mainStreet"))).fadeRuns = appAtZero.fadeRuns + 1 ∧
    (appAtZero.switchScene (some ("mainStreet"))).gs.currentScene =
        jsIndexOf (some ("mainStreet")) := by
  have h := switchScene_unregistered_degraded appAtZero ("mainStreet") (by decide)
  exact ⟨h.1, h.2.1, h.2.2.1 (by decide)⟩

/-! ## C10 — backward navigation never reaches the loading scene -/

/-- Claim C10: `previousScene` is the identity when the current index is `0`
or `1`; from any higher reachable index it swaps to exactly the scene at
`currentScene - 1`, which is never the loading index `0`. -/
theorem previousScene_avoids_loading (a : AppState)
    (h0 : 0 ≤ a.gs.currentScene) (h7 : a.gs.currentScene ≤ 7) :
    (a.gs.currentScene ≤ 1 → a.previousScene = a) ∧
    (2 ≤ a.gs.currentScene →
        (a.previousScene).gs.currentScene = a.gs.currentScene - 1 ∧
        (a.previousScene).switchCalls = a.switchCalls + 1 ∧
        1 ≤ (a.previousScene).gs.currentScene) := by
  constructor
  · intro h
    unfold AppState.previousScene
    by_cases hz : a.gs.currentScene ≤ 0
    · rw [if_pos hz]
    · rw [if_neg hz, if_pos (by omega)]
  · intro h
    unfold AppState.previousScene
    rw [if_neg (by omega), if_neg (by omega)]
    have hidx : jsIndexOf (sceneNameAt (a.gs.currentScene - 1)) =
        a.gs.currentScene - 1 :=
      jsIndexOf_sceneNameAt _ (by omega) (by omega)
    refine ⟨?_, AppState.switchScene_switchCalls a _, ?_⟩
    · rw [AppState.switchScene_gs, hidx, if_pos (by omega)]
      exact GState.setScene_currentScene _ _ (by omega) (by omega)
    · rw [AppState.switchScene_gs, hidx, if_pos (by omega)]
      rw [GState.setScene_currentScene _ _ (by omega) (by omega)]
      omega

/-- Witness for C10: going backward from index 3 lands on index 2 (not 0). -/
theorem previousScene_avoids_loading_witness :
    (appAt3.previousScene).gs.currentScene = appAt3.gs.currentScene - 1 ∧
    (appAt3.previousScene).switchCalls = appAt3.switchCalls + 1 ∧
    1 ≤ (appAt3.previousScene).gs.currentScene :=
  (previousScene_avoids_loading appAt3 (by decide) (by decide)).2 (by decide)

/-! ## C8 — ease-function boundary laws and monotonicity -/

/-- Claim C8: both ease functions satisfy `ease 0 = 0`, `ease 1 = 1`, and are
monotonically non-decreasing on `[0, 1]`. -/
theorem ease_boundary_monotone :
    easeInOutCubic 0 = 0 ∧ easeInOutCubic 1 = 1 ∧
    easeInQuart 0 = 0 ∧ easeInQuart 1 = 1 ∧
    (∀ a b : ℝ, 0 ≤ a → a ≤ b → b ≤ 1 → easeInOutCubic a ≤ easeInOutCubic b) ∧
    (∀ a b : ℝ, 0 ≤ a → a ≤ b → b ≤ 1 → easeInQuart a ≤ easeInQuart b) := by
  refine ⟨?_, ?_, ?_, ?_, ?_, ?_⟩
  · norm_num [easeInOutCubic]
  · norm_num [easeInOutCubic]
  · norm_num [easeInQuart]
  · norm_num [easeInQuart]
  · intro a b ha hab hb1
    unfold easeInOutCubic
    split_ifs with h1 h2 h2
    · nlinarith [pow_le_pow_left₀ ha hab 3]
    · nlinarith [pow_le_pow_left₀ ha h1.le 3,
        pow_le_pow_left₀ (by linarith : (0:ℝ) ≤ -2 * b + 2)
          (by linarith : -2 * b + 2 ≤ 1) 3]
    · linarith
    · nlinarith [pow_le_pow_left₀ (by linarith : (0:ℝ) ≤ -2 * b + 2)
        (by linarith : -2 * b + 2 ≤ -2 * a + 2) 3]
  · intro a b ha hab hb1
    unfold easeInQuart
    nlinarith [pow_le_pow_left₀ ha hab 4]

/-- Witness for C8: the boundary values, and monotonicity applied across the
two branch regions at `1/4 ≤ 3/4`. -/
theorem ease_boundary_monotone_witness :
    easeInOutCubic 0 = 0 ∧ easeInQuart 1 = 1 ∧
    easeInOutCubic (1/4) ≤ easeInOutCubic (3/4) ∧
    easeInQuart (1/4) ≤ easeInQuart (3/4) := by
  have h := ease_boundary_monotone
  exact ⟨h.1, h.2.2.2.1,
    h.2.2.2.2.1 (1/4) (3/4) (by norm_num) (by norm_num) (by norm_num),
    h.2.2.2.2.2 (1/4) (3/4) (by norm_num) (by norm_num) (by norm_num)⟩

/-! ## Helper lemmas about the intro timeline -/

theorem LScene.orbitParticles_phase (s : LScene) (delta : ℝ) :
    (s.orbitParticles delta).phase = s.phase := rfl

theorem LScene.orbitParticles_phaseTimer (s : LScene) (delta : ℝ) :
    (s.orbitParticles delta).phaseTimer = s.phaseTimer := rfl

theorem LScene.orbitParticles_pulseTime (s : LScene) (delta : ℝ) :
    (s.orbitParticles delta).pulseTime = s.pulseTime := rfl

theorem LScene.orbitParticles_isComplete (s : LScene) (delta : ℝ) :
    (s.orbitParticles delta).isComplete = s.isComplete := rfl

theorem LScene.orbitParticles_explodeStarted (s : LScene) (delta : ℝ) :
    (s.orbitParticles delta).explodeStarted = s.explodeStarted := rfl

theorem LScene.orbitParticles_dotPulseCount (s : LScene) (delta : ℝ) :
    (s.orbitParticles delta).dotPulseCount = s.dotPulseCount := rfl

theorem LScene.orbitParticles_lastSinSign (s : LScene) (delta : ℝ) :
    (s.orbitParticles delta).lastSinSign = s.lastSinSign := rfl

/-- A completed intro scene ignores `update` entirely. -/
theorem LScene.update_of_complete (s : LScene) (time delta : ℝ)
    (h : s.isComplete = true) : s.update time delta = s := by
  unfold LScene.update
  rw [if_pos (by simp [h])]

/-! ## C6 — exit burst completion and the idempotent tail state -/

/-- Claim C6: when the exit-burst phase timer reaches `EXIT_DURATION` within
a frame, that frame's `update` marks the scene complete, re-enables the
previously disabled controls (look unblocked, arrows shown) and sets
`canProgress` on the progress store; and once complete, every further
`update` returns the state unchanged in all fields. -/
theorem exitBurst_completion_idempotent :
    (∀ (s : LScene) (time delta : ℝ),
        s.isComplete = false → s.phase = Phase.exitBurst →
        EXIT_DURATION ≤ s.phaseTimer + delta * 0.001 →
        ((s.update time delta).isComplete = true ∧
         (s.update time delta).blockLook = false ∧
         (s.update time delta).arrowsShown = true ∧
         (s.update time delta).gsCanProgress = true)) ∧
    (∀ (s : LScene) (time delta : ℝ),
        s.isComplete = true → s.update time delta = s) := by
  constructor
  · intro s time delta hni hph hdur
    have hE : (0:ℝ) < EXIT_DURATION := by norm_num [EXIT_DURATION]
    have ht : (1:ℝ) ≤ min ((s.phaseTimer + delta * 0.001) / EXIT_DURATION) 1 := by
      refine le_min ?_ le_rfl
      rw [le_div_iff₀ hE]; linarith
    unfold LScene.update
    rw [if_neg (by simp [hni])]
    simp only [LScene.orbitParticles, hph]
    unfold LScene.updateExitBurst
    simp only []
    rw [if_pos ht]
    exact ⟨rfl, rfl, rfl, rfl⟩
  · intro s time delta h
    exact LScene.update_of_complete s time delta h

/-- Witness for C6: a `100` ms frame pushes the exit timer past `0.7` s and
completes the scene; a completed scene's frame is the identity. -/
theorem exitBurst_completion_idempotent_witness :
    ((exitLS.update 0 100).isComplete = true ∧
     (exitLS.update 0 100).blockLook = false ∧
     (exitLS.update 0 100).arrowsShown = true ∧
     (exitLS.update 0 100).gsCanProgress = true) ∧
    doneLS.update 0 16 = doneLS :=
  ⟨exitBurst_completion_idempotent.1 exitLS 0 100 rfl rfl
      (by norm_num [exitLS, EXIT_DURATION]),
   exitBurst_completion_idempotent.2 doneLS 0 16 rfl⟩

/-! ## Helper lemmas towards the zero-crossing claim -/

theorem ptSeq_succ (p0 : ℝ) (d : ℕ → ℝ) (n : ℕ) :
    ptSeq p0 d (n + 1) = ptSeq p0 d n + d n * 0.001 := rfl

theorem LScene.updateLoading_explodeStarted (s : LScene) :
    (s.updateLoading).explodeStarted = s.explodeStarted := rfl

theorem LScene.updateRingFade_explodeStarted (s : LScene) (dt : ℝ) :
    (s.updateRingFade dt).explodeStarted = s.explodeStarted := by
  unfold LScene.updateRingFade
  by_cases h : (1:ℝ) ≤ min (s.phaseTimer / RING_FADE_DURATION) 1 <;> simp [h]

theorem LScene.updateTextPulse_explodeStarted (s : LScene) (dt : ℝ) :
    (s.updateTextPulse dt).explodeStarted = s.explodeStarted := by
  unfold LScene.updateTextPulse
  by_cases h1 : PULSE_HOLD_BEFORE_EXIT ≤ s.phaseTimer <;>
    by_cases h2 : (0.85:ℝ) < Real.sin (s.pulseTime * 2.5) <;> simp [h1, h2]

theorem LScene.updateExitBurst_explodeStarted (s : LScene) (dt : ℝ) :
    (s.updateExitBurst dt).explodeStarted = s.explodeStarted := by
  unfold LScene.updateExitBurst
  by_cases h : (1:ℝ) ≤ min (s.phaseTimer / EXIT_DURATION) 1 <;> simp [h]

set_option maxHeartbeats 2000000 in
/-- Once the explosion has started, `updateDotExplode` never unsets it. -/
theorem LScene.updateDotExplode_started_mono (s : LScene) (dt : ℝ)
    (h : s.explodeStarted = true) :
    (s.updateDotExplode dt).explodeStarted = true := by
  unfold LScene.updateDotExplode
  simp only []
  by_cases hc : 0 < s.lastSinSign ∧ jsSign (Real.sin (s.pulseTime * 3)) ≤ 0
  · rw [if_pos hc,
      if_neg (show ¬ (DOT_PULSES_BEFORE_EXPLODE ≤ s.dotPulseCount + 1 ∧
          s.explodeStarted = false) from by simp [h]),
      if_neg (show ¬ (s.explodeStarted = false) from by simp [h])]
    split_ifs <;> simp [h]
  · rw [if_neg hc, if_neg (show ¬ (s.explodeStarted = false) from by simp [h])]
    split_ifs <;> simp [h]

/-- Once the explosion has started, no later frame unsets it. -/
theorem LScene.update_started_mono (s : LScene) (t dlt : ℝ)
    (h : s.explodeStarted = true) :
    (s.update t dlt).explodeStarted = true := by
  unfold LScene.update
  by_cases hc : s.isComplete = true
  · rw [if_pos (by simp [hc])]; exact h
  · rw [if_neg (by simp [hc])]
    cases hph : s.phase
    · simp only [LScene.orbitParticles, hph]
      rw [LScene.updateLoading_explodeStarted]; exact h
    · simp only [LScene.orbitParticles, hph]
      rw [LScene.updateRingFade_explodeStarted]; exact h
    · simp only [LScene.orbitParticles, hph]
      exact LScene.updateDotExplode_started_mono _ _ h
    · simp only [LScene.orbitParticles, hph]
      rw [LScene.updateTextPulse_explodeStarted]; exact h
    · simp only [LScene.orbitParticles, hph]
      rw [LScene.updateExitBurst_explodeStarted]; exact h

set_option maxHeartbeats 2000000 in
/-- One `updateDotExplode` step without a crossing while waiting: the scene
keeps waiting and records the new sample's sign. -/
theorem LScene.updateDotExplode_wait (s : LScene) (dt : ℝ)
    (hst : s.explodeStarted = false)
    (hcross : ¬ (0 < s.lastSinSign ∧ jsSign (Real.sin (s.pulseTime * 3)) ≤ 0)) :
    (s.updateDotExplode dt).phase = s.phase ∧
    (s.updateDotExplode dt).isComplete = s.isComplete ∧
    (s.updateDotExplode dt).explodeStarted = false ∧
    (s.updateDotExplode dt).dotPulseCount = s.dotPulseCount ∧
    (s.updateDotExplode dt).pulseTime = s.pulseTime ∧
    (s.updateDotExplode dt).lastSinSign = jsSign (Real.sin (s.pulseTime * 3)) := by
  unfold LScene.updateDotExplode
  simp only []
  rw [if_neg hcross, if_pos (show s.explodeStarted = false from hst)]
  exact ⟨rfl, rfl, hst, rfl, rfl, rfl⟩

set_option maxHeartbeats 2000000 in
/-- One `updateDotExplode` step that observes a crossing while waiting: the
explosion starts and its timer is reset to zero on exactly that step. -/
theorem LScene.updateDotExplode_cross (s : LScene) (dt : ℝ)
    (hst : s.explodeStarted = false)
    (hcross : 0 < s.lastSinSign ∧ jsSign (Real.sin (s.pulseTime * 3)) ≤ 0) :
    (s.updateDotExplode dt).phase = s.phase ∧
    (s.updateDotExplode dt).isComplete = s.isComplete ∧
    (s.updateDotExplode dt).explodeStarted = true ∧
    (s.updateDotExplode dt).phaseTimer = 0 := by
  unfold LScene.updateDotExplode
  simp only []
  rw [if_pos hcross,
    if_pos (show DOT_PULSES_BEFORE_EXPLODE ≤ s.dotPulseCount + 1 ∧
        s.explodeStarted = false from
      ⟨by simp [DOT_PULSES_BEFORE_EXPLODE], hst⟩),
    if_neg (show ¬ ((true : Bool) = false) from by simp)]
  have ht0 : min ((0:ℝ) / EXPLODE_DURATION) 1 = 0 := by
    rw [zero_div]
    exact min_eq_left zero_le_one
  rw [ht0,
    if_neg (show ¬ ((0.25:ℝ) ≤ 0) from by norm_num),
    if_neg (show ¬ ((0.2:ℝ) ≤ 0) from by norm_num),
    if_neg (show ¬ ((1:ℝ) ≤ 0) from by norm_num)]
  exact ⟨rfl, rfl, rfl, rfl⟩

set_option maxHeartbeats 2000000 in
/-- With the progression still pending, a frame on a `dotExplode` scene is
the clock step followed by `updateDotExplode`. -/
theorem LScene.update_eq_dotExplode (s : LScene) (t dlt : ℝ)
    (hni : s.isComplete = false) (hph : s.phase = Phase.dotExplode) :
    s.update t dlt =
      (({ s with pulseTime := s.pulseTime + dlt * 0.001
                 phaseTimer := s.phaseTimer + dlt * 0.001
                 ringRotZ := s.ringRotZ + dlt * 0.0004 }).orbitParticles
        dlt).updateDotExplode (dlt * 0.001) := by
  unfold LScene.update
  rw [if_neg (by simp [hni])]
  simp only []
  split
  all_goals rename_i heq
  all_goals
    first
      | rfl
      | (rw [LScene.orbitParticles_phase] at heq
         simp [hph] at heq)

set_option maxHeartbeats 2000000 in
/-- With the progression still pending, a frame on a `ringFade` scene is the
clock step followed by `updateRingFade`. -/
theorem LScene.update_eq_ringFade (s : LScene) (t dlt : ℝ)
    (hni : s.isComplete = false) (hph : s.phase = Phase.ringFade) :
    s.update t dlt =
      (({ s with pulseTime := s.pulseTime + dlt * 0.001
                 phaseTimer := s.phaseTimer + dlt * 0.001
                 ringRotZ := s.ringRotZ + dlt * 0.0004 }).orbitParticles
        dlt).updateRingFade (dlt * 0.001) := by
  unfold LScene.update
  rw [if_neg (by simp [hni])]
  simp only []
  split
  all_goals rename_i heq
  all_goals
    first
      | rfl
      | (rw [LScene.orbitParticles_phase] at heq
         simp [hph] at heq)

/-- One waiting frame of `dotExplode` without a crossing, at the `update`
level. -/
theorem LScene.update_dotExplode_wait (s : LScene) (t dlt : ℝ)
    (hni : s.isComplete = false) (hph : s.phase = Phase.dotExplode)
    (hst : s.explodeStarted = false)
    (hcross : ¬ (0 < s.lastSinSign ∧
        jsSign (Real.sin ((s.pulseTime + dlt * 0.001) * 3)) ≤ 0)) :
    (s.update t dlt).phase = Phase.dotExplode ∧
    (s.update t dlt).isComplete = false ∧
    (s.update t dlt).explodeStarted = false ∧
    (s.update t dlt).dotPulseCount = s.dotPulseCount ∧
    (s.update t dlt).pulseTime = s.pulseTime + dlt * 0.001 ∧
    (s.update t dlt).lastSinSign =
      jsSign (Real.sin ((s.pulseTime + dlt * 0.001) * 3)) := by
  rw [LScene.update_eq_dotExplode s t dlt hni hph]
  have h := LScene.updateDotExplode_wait
    (({ s with pulseTime := s.pulseTime + dlt * 0.001
               phaseTimer := s.phaseTimer + dlt * 0.001
               ringRotZ := s.ringRotZ + dlt * 0.0004 }).orbitParticles dlt)
    (dlt * 0.001) hst hcross
  refine ⟨?_, ?_, h.2.2.1, ?_, ?_, ?_⟩
  · rw [h.1]; exact hph
  · rw [h.2.1]; exact hni
  · rw [h.2.2.2.1]; rfl
  · rw [h.2.2.2.2.1]; rfl
  · rw [h.2.2.2.2.2]; rfl


/-- One frame of `dotExplode` that observes a crossing while waiting, at the
`update` level: the explosion starts and its timer is reset to zero. -/
theorem LScene.update_dotExplode_cross (s : LScene) (t dlt : ℝ)
    (hni : s.isComplete = false) (hph : s.phase = Phase.dotExplode)
    (hst : s.explodeStarted = false)
    (hcross : 0 < s.lastSinSign ∧
        jsSign (Real.sin ((s.pulseTime + dlt * 0.001) * 3)) ≤ 0) :
    (s.update t dlt).phase = Phase.dotExplode ∧
    (s.update t dlt).isComplete = false ∧
    (s.update t dlt).explodeStarted = true ∧
    (s.update t dlt).phaseTimer = 0 := by
  rw [LScene.update_eq_dotExplode s t dlt hni hph]
  have h := LScene.updateDotExplode_cross
    (({ s with pulseTime := s.pulseTime + dlt * 0.001
               phaseTimer := s.phaseTimer + dlt * 0.001
               ringRotZ := s.ringRotZ + dlt * 0.0004 }).orbitParticles dlt)
    (dlt * 0.001) hst hcross
  refine ⟨?_, ?_, h.2.2.1, h.2.2.2⟩
  · rw [h.1]; exact hph
  · rw [h.2.1]; exact hni

/-- Completing `ringFade` enters `dotExplode` with the pulse counter reset
and the sine sign seeded from the current pulse sample. -/
theorem LScene.update_ringFade_seed (s : LScene) (t dlt : ℝ)
    (hni : s.isComplete = false) (hph : s.phase = Phase.ringFade)
    (hdur : RING_FADE_DURATION ≤ s.phaseTimer + dlt * 0.001) :
    (s.update t dlt).phase = Phase.dotExplode ∧
    (s.update t dlt).dotPulseCount = 0 ∧
    (s.update t dlt).explodeStarted = s.explodeStarted ∧
    (s.update t dlt).lastSinSign =
      jsSign (Real.sin ((s.pulseTime + dlt * 0.001) * 3)) := by
  rw [LScene.update_eq_ringFade s t dlt hni hph]
  unfold LScene.updateRingFade
  simp only [LScene.orbitParticles_phaseTimer, LScene.orbitParticles_pulseTime]
  have ht : (1:ℝ) ≤ min ((s.phaseTimer + dlt * 0.001) / RING_FADE_DURATION) 1 := by
    refine le_min ?_ le_rfl
    rw [le_div_iff₀ (by norm_num [RING_FADE_DURATION])]
    have hc : RING_FADE_DURATION = (0.3:ℝ) := rfl
    linarith [hdur]
  rw [if_pos ht]
  exact ⟨rfl, rfl, rfl, rfl⟩

/-- As long as no crossing has occurred, the scene is still waiting in
`dotExplode` with the nominal clock and the latest sample's sign. -/
theorem dotWait_invariant (s0 : LScene) (tf d : ℕ → ℝ)
    (hph : s0.phase = Phase.dotExplode) (hcm : s0.isComplete = false)
    (hst : s0.explodeStarted = false) (hct : s0.dotPulseCount = 0)
    (hsg : s0.lastSinSign = jsSign (Real.sin (s0.pulseTime * 3))) :
    ∀ n, (∀ k, k < n → ¬ crossAt s0.pulseTime d k) →
      ((LScene.iterFrames s0 tf d n).phase = Phase.dotExplode ∧
       (LScene.iterFrames s0 tf d n).isComplete = false ∧
       (LScene.iterFrames s0 tf d n).explodeStarted = false ∧
       (LScene.iterFrames s0 tf d n).dotPulseCount = 0 ∧
       (LScene.iterFrames s0 tf d n).pulseTime = ptSeq s0.pulseTime d n ∧
       (LScene.iterFrames s0 tf d n).lastSinSign = sgnSeq s0.pulseTime d n) := by
  intro n
  induction n with
  | zero =>
      intro _
      refine ⟨hph, hcm, hst, hct, rfl, ?_⟩
      show s0.lastSinSign = sgnSeq s0.pulseTime d 0
      rw [hsg]; rfl
  | succ n ih =>
      intro hnc
      obtain ⟨h1, h2, h3, h4, h5, h6⟩ := ih (fun k hk => hnc k (Nat.lt_succ_of_lt hk))
      have hncn := hnc n (Nat.lt_succ_self n)
      have hc' : ¬ (0 < (LScene.iterFrames s0 tf d n).lastSinSign ∧
          jsSign (Real.sin (((LScene.iterFrames s0 tf d n).pulseTime +
            d n * 0.001) * 3)) ≤ 0) := by
        rw [h5, h6]
        simpa [crossAt, sgnSeq, ptSeq_succ] using hncn
      have hA := LScene.update_dotExplode_wait (LScene.iterFrames s0 tf d n)
        (tf n) (d n) h2 h1 h3 hc'
      simp only [LScene.iterFrames]
      refine ⟨hA.1, hA.2.1, hA.2.2.1, ?_, ?_, ?_⟩
      · rw [hA.2.2.2.1, h4]
      · rw [hA.2.2.2.2.1, h5, ptSeq_succ]
      · rw [hA.2.2.2.2.2, h5]
        simp [sgnSeq, ptSeq_succ]

/-- Claim C7: in the `dotExplode` phase (configured cycle count `1`), over
any sequence of per-frame deltas the explosion flag is set exactly when some
earlier frame observed a positive-to-nonpositive crossing of the sine
sample's sign, the explosion timer is reset to zero on the first such frame
and not before, and the crossing state is seeded at `ringFade` completion
from the current sign of the pulse signal (so a half-cycle already in
progress is not double-counted). -/
theorem dotExplode_first_crossing (s0 : LScene) (tf d : ℕ → ℝ)
    (hph : s0.phase = Phase.dotExplode) (hcm : s0.isComplete = false)
    (hst : s0.explodeStarted = false) (hct : s0.dotPulseCount = 0)
    (hsg : s0.lastSinSign = jsSign (Real.sin (s0.pulseTime * 3))) :
    (∀ n, ((LScene.iterFrames s0 tf d n).explodeStarted = true ↔
        ∃ k, k < n ∧ crossAt s0.pulseTime d k)) ∧
    (∀ m, (∀ k, k < m → ¬ crossAt s0.pulseTime d k) → crossAt s0.pulseTime d m →
        (LScene.iterFrames s0 tf d (m + 1)).explodeStarted = true ∧
        (LScene.iterFrames s0 tf d (m + 1)).phaseTimer = 0) ∧
    (∀ (s : LScene) (t dlt : ℝ), s.isComplete = false → s.phase = Phase.ringFade →
        RING_FADE_DURATION ≤ s.phaseTimer + dlt * 0.001 →
        ((s.update t dlt).phase = Phase.dotExplode ∧
         (s.update t dlt).dotPulseCount = 0 ∧
         (s.update t dlt).explodeStarted = s.explodeStarted ∧
         (s.update t dlt).lastSinSign =
           jsSign (Real.sin ((s.pulseTime + dlt * 0.001) * 3)))) := by
  have hcross_of_first : ∀ m, (∀ k, k < m → ¬ crossAt s0.pulseTime d k) →
      crossAt s0.pulseTime d m →
      (LScene.iterFrames s0 tf d (m + 1)).explodeStarted = true ∧
      (LScene.iterFrames s0 tf d (m + 1)).phaseTimer = 0 := by
    intro m hfirst hc
    obtain ⟨h1, h2, h3, h4, h5, h6⟩ :=
      dotWait_invariant s0 tf d hph hcm hst hct hsg m hfirst
    have hc' : 0 < (LScene.iterFrames s0 tf d m).lastSinSign ∧
        jsSign (Real.sin (((LScene.iterFrames s0 tf d m).pulseTime +
          d m * 0.001) * 3)) ≤ 0 := by
      rw [h5, h6]
      simpa [crossAt, sgnSeq, ptSeq_succ] using hc
    have hB := LScene.update_dotExplode_cross (LScene.iterFrames s0 tf d m)
      (tf m) (d m) h2 h1 h3 hc'
    exact ⟨hB.2.2.1, hB.2.2.2⟩
  refine ⟨?_, hcross_of_first, ?_⟩
  · have hfwd : ∀ n, (∃ k, k < n ∧ crossAt s0.pulseTime d k) →
        (LScene.iterFrames s0 tf d n).explodeStarted = true := by
      intro n
      induction n with
      | zero => rintro ⟨k, hk, _⟩; exact absurd hk (Nat.not_lt_zero k)
      | succ n ih =>
          rintro ⟨k, hk, hc⟩
          by_cases hex : ∃ j, j < n ∧ crossAt s0.pulseTime d j
          · exact LScene.update_started_mono _ _ _ (ih hex)
          · push_neg at hex
            have hk' : k = n := by
              rcases Nat.lt_succ_iff_lt_or_eq.mp hk with h | h
              · exact absurd hc (hex k h)
              · exact h
            subst hk'
            exact (hcross_of_first k (fun j hj => hex j hj) hc).1
    intro n
    constructor
    · intro hstart
      by_contra hnex
      push_neg at hnex
      have hinv := dotWait_invariant s0 tf d hph hcm hst hct hsg n
        (fun k hk => hnex k hk)
      rw [hinv.2.2.1] at hstart
      exact absurd hstart (by simp)
    · exact hfwd n
  · intro s t dlt h1 h2 h3
    exact LScene.update_ringFade_seed s t dlt h1 h2 h3

/-- The pulse clock of `dotLS` starts at `π/6` and its seeded sign is the
sample's actual sign. -/
theorem dotLS_seed : dotLS.lastSinSign = jsSign (Real.sin (dotLS.pulseTime * 3)) := by
  show (1:ℝ) = jsSign (Real.sin (Real.pi / 6 * 3))
  rw [show Real.pi / 6 * 3 = Real.pi / 2 by ring, Real.sin_pi_div_two]
  norm_num [jsSign]

/-- Driving the clock from `π/6` by `π/6` crosses at the very first frame
(`sin(π/2) = 1` is of positive sign, `sin π = 0` of non-positive sign). -/
theorem dotLS_cross0 : crossAt dotLS.pulseTime dSeqW 0 := by
  constructor
  · show 0 < jsSign (Real.sin (ptSeq dotLS.pulseTime dSeqW 0 * 3))
    have harg : ptSeq dotLS.pulseTime dSeqW 0 * 3 = Real.pi / 2 := by
      show Real.pi / 6 * 3 = Real.pi / 2
      ring
    rw [harg, Real.sin_pi_div_two]
    norm_num [jsSign]
  · show jsSign (Real.sin (ptSeq dotLS.pulseTime dSeqW 1 * 3)) ≤ 0
    have harg : ptSeq dotLS.pulseTime dSeqW 1 * 3 = Real.pi := by
      show (Real.pi / 6 + 1000 * (Real.pi / 6) * 0.001) * 3 = Real.pi
      ring
    rw [harg, Real.sin_pi]
    norm_num [jsSign]

/-- Witness for C7: from the seeded `dotExplode` state, one frame advancing
the pulse clock from `π/6` to `π/3` observes the crossing and starts the
explosion timer at zero. -/
theorem dotExplode_first_crossing_witness :
    (LScene.iterFrames dotLS tfZero dSeqW 1).explodeStarted = true ∧
    (LScene.iterFrames dotLS tfZero dSeqW 1).phaseTimer = 0 :=
  (dotExplode_first_crossing dotLS tfZero dSeqW rfl rfl rfl rfl dotLS_seed).2.1
    0 (fun k hk => absurd hk (Nat.not_lt_zero k)) dotLS_cross0

/-! ## Helper lemmas about the gated-passage timeline -/

theorem GateScene.updateTextAnimation_gateSoundCount (s : GateScene) :
    (s.updateTextAnimation).gateSoundCount = s.gateSoundCount := by
  unfold GateScene.updateTextAnimation
  simp only []
  split_ifs <;> rfl

theorem GateScene.updateTextAnimation_gateSoundPlayed (s : GateScene) :
    (s.updateTextAnimation).gateOpeningSoundPlayed = s.gateOpeningSoundPlayed := by
  unfold GateScene.updateTextAnimation
  simp only []
  split_ifs <;> rfl

theorem GateScene.updateTextFloating_gateSoundCount (s : GateScene) :
    (s.updateTextFloating).gateSoundCount = s.gateSoundCount := by
  unfold GateScene.updateTextFloating
  split_ifs <;> rfl

theorem GateScene.updateTextFloating_gateSoundPlayed (s : GateScene) :
    (s.updateTextFloating).gateOpeningSoundPlayed = s.gateOpeningSoundPlayed := by
  unfold GateScene.updateTextFloating
  split_ifs <;> rfl

theorem GateScene.checkUserProgress_gateSoundCount (s : GateScene) (camZ : ℝ) :
    (s.checkUserProgress camZ).gateSoundCount = s.gateSoundCount := by
  unfold GateScene.checkUserProgress
  split_ifs <;> rfl

theorem GateScene.checkUserProgress_gateSoundPlayed (s : GateScene) (camZ : ℝ) :
    (s.checkUserProgress camZ).gateOpeningSoundPlayed = s.gateOpeningSoundPlayed := by
  unfold GateScene.checkUserProgress
  split_ifs <;> rfl

theorem GateScene.updateLightsForTheme_gateSoundCount (s : GateScene) (isLight : Bool) :
    (s.updateLightsForTheme isLight).gateSoundCount = s.gateSoundCount := by
  unfold GateScene.updateLightsForTheme
  split_ifs <;> rfl

theorem GateScene.updateLightsForTheme_gateSoundPlayed (s : GateScene) (isLight : Bool) :
    (s.updateLightsForTheme isLight).gateOpeningSoundPlayed = s.gateOpeningSoundPlayed := by
  unfold GateScene.updateLightsForTheme
  split_ifs <;> rfl

/-- A single `updateDoorAnimation` step either leaves the audio trigger state
untouched, or fires the cue exactly once — and then only strictly inside the
`(0, 0.05)` door-progress window with the one-shot flag previously down. -/
theorem GateScene.updateDoorAnimation_dichotomy (s : GateScene) :
    ((s.updateDoorAnimation).gateSoundCount = s.gateSoundCount ∧
     (s.updateDoorAnimation).gateOpeningSoundPlayed = s.gateOpeningSoundPlayed) ∨
    ((s.updateDoorAnimation).gateSoundCount = s.gateSoundCount + 1 ∧
     (s.updateDoorAnimation).gateOpeningSoundPlayed = true ∧
     s.gateOpeningSoundPlayed = false ∧ s.doorsOpened = false ∧
     0 < doorT s.elapsedTime ∧ doorT s.elapsedTime < 0.05) := by
  unfold GateScene.updateDoorAnimation
  by_cases h1 : s.doorsOpened = true
  · left
    rw [if_pos h1]
    exact ⟨rfl, rfl⟩
  · rw [if_neg h1]
    by_cases h2 : s.elapsedTime < DOOR_ANIMATION_START
    · left
      rw [if_pos h2]
      exact ⟨rfl, rfl⟩
    · rw [if_neg h2]
      simp only []
      by_cases h3 : 0 < min ((s.elapsedTime - DOOR_ANIMATION_START) /
            DOOR_ANIMATION_DURATION) 1 ∧
          min ((s.elapsedTime - DOOR_ANIMATION_START) / DOOR_ANIMATION_DURATION) 1
            < 0.05 ∧ s.gateOpeningSoundPlayed = false
      · right
        rw [if_pos h3]
        by_cases h4 : (1:ℝ) ≤ min ((s.elapsedTime - DOOR_ANIMATION_START) /
            DOOR_ANIMATION_DURATION) 1
        · rw [if_pos h4]
          exact ⟨rfl, rfl, h3.2.2, by simpa using h1, h3.1, h3.2.1⟩
        · rw [if_neg h4]
          exact ⟨rfl, rfl, h3.2.2, by simpa using h1, h3.1, h3.2.1⟩
      · left
        rw [if_neg h3]
        by_cases h4 : (1:ℝ) ≤ min ((s.elapsedTime - DOOR_ANIMATION_START) /
            DOOR_ANIMATION_DURATION) 1
        · rw [if_pos h4]
          exact ⟨rfl, rfl⟩
        · rw [if_neg h4]
          exact ⟨rfl, rfl⟩

/-- A frame's effect on the audio trigger state is exactly its
`updateDoorAnimation` sub-step's effect. -/
theorem GateScene.update_sound_eq_door (s : GateScene) (e dlt cz : ℝ) (th : Bool) :
    (s.update e dlt cz th).gateSoundCount =
      ({ s with elapsedTime := e / 1000 }.updateDoorAnimation).gateSoundCount ∧
    (s.update e dlt cz th).gateOpeningSoundPlayed =
      ({ s with elapsedTime := e / 1000 }.updateDoorAnimation).gateOpeningSoundPlayed := by
  unfold GateScene.update
  constructor
  · rw [GateScene.updateLightsForTheme_gateSoundCount,
      GateScene.checkUserProgress_gateSoundCount,
      GateScene.updateTextFloating_gateSoundCount,
      GateScene.updateTextAnimation_gateSoundCount]
  · rw [GateScene.updateLightsForTheme_gateSoundPlayed,
      GateScene.checkUserProgress_gateSoundPlayed,
      GateScene.updateTextFloating_gateSoundPlayed,
      GateScene.updateTextAnimation_gateSoundPlayed]

/-- A frame either leaves the audio trigger state untouched or fires the cue
exactly once, only inside the `(0, 0.05)` window. -/
theorem GateScene.update_sound_dichotomy (s : GateScene) (e dlt cz : ℝ) (th : Bool) :
    ((s.update e dlt cz th).gateSoundCount = s.gateSoundCount ∧
     (s.update e dlt cz th).gateOpeningSoundPlayed = s.gateOpeningSoundPlayed) ∨
    ((s.update e dlt cz th).gateSoundCount = s.gateSoundCount + 1 ∧
     (s.update e dlt cz th).gateOpeningSoundPlayed = true ∧
     s.gateOpeningSoundPlayed = false ∧ s.doorsOpened = false ∧
     0 < doorT (e / 1000) ∧ doorT (e / 1000) < 0.05) := by
  obtain ⟨hc, hp⟩ := GateScene.update_sound_eq_door s e dlt cz th
  rcases GateScene.updateDoorAnimation_dichotomy { s with elapsedTime := e / 1000 } with
    ⟨hc', hp'⟩ | ⟨hc', hp', hflag, hdoor, hwin1, hwin2⟩
  · exact Or.inl ⟨hc.trans hc', hp.trans hp'⟩
  · exact Or.inr ⟨hc.trans hc', hp.trans hp', hflag, hdoor, hwin1, hwin2⟩

/-- With the one-shot flag already up, no later frame fires the cue again. -/
theorem GateScene.runFrames_sound_played (s : GateScene) (fs : List GateFrame)
    (h : s.gateOpeningSoundPlayed = true) :
    (GateScene.runFrames s fs).gateSoundCount = s.gateSoundCount ∧
    (GateScene.runFrames s fs).gateOpeningSoundPlayed = true := by
  induction fs generalizing s with
  | nil => exact ⟨rfl, h⟩
  | cons f fs ih =>
      rcases GateScene.update_sound_dichotomy s f.elapsed f.delta f.camZ f.isLight with
        ⟨hc, hp⟩ | ⟨_, _, hflag, _⟩
      · have hrec := ih (s := s.update f.elapsed f.delta f.camZ f.isLight)
          (hp.trans h)
        simp only [GateScene.runFrames]
        exact ⟨hrec.1.trans hc, hrec.2⟩
      · rw [h] at hflag
        cases hflag

/-- Over any frame sequence the cue fires at most once. -/
theorem GateScene.runFrames_sound_at_most_once (s : GateScene) (fs : List GateFrame)
    (h : s.gateOpeningSoundPlayed = false) :
    (GateScene.runFrames s fs).gateSoundCount ≤ s.gateSoundCount + 1 := by
  induction fs generalizing s with
  | nil => exact Nat.le_succ _
  | cons f fs ih =>
      rcases GateScene.update_sound_dichotomy s f.elapsed f.delta f.camZ f.isLight with
        ⟨hc, hp⟩ | ⟨hc, hp, _, _, _⟩
      · have hrec := ih (s := s.update f.elapsed f.delta f.camZ f.isLight)
          (hp.trans h)
        simp only [GateScene.runFrames]
        rw [hc] at hrec
        exact hrec
      · have hrec := GateScene.runFrames_sound_played
          (s.update f.elapsed f.delta f.camZ f.isLight) fs hp
        simp only [GateScene.runFrames]
        rw [hrec.1, hc]

/-! ## C9 — the gate-opening cue fires at most once, near the door start -/

/-- Counterexample to claim C9 as stated: a frame sequence whose only frame
lands past the cue window (elapsed 700 ms, door progress `0.1 ≥ 0.05`) is a
sequence of per-frame elapsed times after the door-start delay on which the
cue is triggered zero times, not exactly once. -/
theorem gate_sound_cue_cex :
    ¬ ((gateInit.update 700 16 0 false).gateSoundCount =
        gateInit.gateSoundCount + 1) := by
  rcases GateScene.update_sound_dichotomy gateInit 700 16 0 false with
    ⟨hc, _⟩ | ⟨_, _, _, _, _, hwin⟩
  · rw [hc]; omega
  · exfalso
    rw [doorT] at hwin
    rw [DOOR_ANIMATION_START, DOOR_ANIMATION_DURATION] at hwin
    norm_num [min_def] at hwin

/-- Claim C9 (amended): over every sequence of per-frame elapsed times the
gate-opening audio cue is triggered at most once; a frame triggers it only
when the normalized door progress lies strictly inside `(0, 0.05)` and the
one-shot flag is still down, and once it has fired no later frame of the
same scene instance triggers it again. -/
theorem gate_sound_cue_window (s : GateScene) (e dlt cz : ℝ) (th : Bool)
    (fs : List GateFrame) :
    (((s.update e dlt cz th).gateSoundCount = s.gateSoundCount ∧
      (s.update e dlt cz th).gateOpeningSoundPlayed = s.gateOpeningSoundPlayed) ∨
     ((s.update e dlt cz th).gateSoundCount = s.gateSoundCount + 1 ∧
      (s.update e dlt cz th).gateOpeningSoundPlayed = true ∧
      s.gateOpeningSoundPlayed = false ∧ s.doorsOpened = false ∧
      0 < doorT (e / 1000) ∧ doorT (e / 1000) < 0.05)) ∧
    (s.gateOpeningSoundPlayed = false →
      (GateScene.runFrames s fs).gateSoundCount ≤ s.gateSoundCount + 1) ∧
    (s.gateOpeningSoundPlayed = true →
      (GateScene.runFrames s fs).gateSoundCount = s.gateSoundCount) :=
  ⟨GateScene.update_sound_dichotomy s e dlt cz th,
   fun h => GateScene.runFrames_sound_at_most_once s fs h,
   fun h => (GateScene.runFrames_sound_played s fs h).1⟩

/-- Witness for C9 (amended): a fresh gate scene driven through a frame that
lands inside the cue window fires the cue at most once. -/
theorem gate_sound_cue_window_witness :
    (GateScene.runFrames gateInit
        [{ elapsed := 520, delta := 16, camZ := 0, isLight := false }]).gateSoundCount ≤
      gateInit.gateSoundCount + 1 :=
  (gate_sound_cue_window gateInit 520 16 0 false
      [{ elapsed := 520, delta := 16, camZ := 0, isLight := false }]).2.1 rfl

end Unimate
